import Mathlib

/-!
Verification of the Forecasting & Confidence Calibration Engine
(backend/app/services/ml/price_predictor.py,
backend/app/services/ml/risk_vs_predict.py,
backend/app/services/model_trainer.py).

The Python code computes with IEEE floats; the embedding idealises
arithmetic over exact rationals (ℚ) where the code only adds, divides and
compares, and over the reals (ℝ) where the code calls `exp` or `sqrt`.
Calls into the external statsmodels/sklearn fitting routines are modelled
as oracle parameters: an `Option`-valued fit result, `none` standing for a
raised exception, because the repository only consumes those results
through try/except blocks.
-/

/-! ## Shared list arithmetic -/

/-- Arithmetic mean of a list of rationals (`pandas.Series.mean`);
division by zero for the empty list yields 0, callers guard emptiness. -/
def listMean (l : List ℚ) : ℚ := l.sum / l.length

/-- Insert into a sorted list, used to model `pandas` sorting for medians. -/
def insertSorted (x : ℚ) : List ℚ → List ℚ
  | [] => [x]
  | y :: ys => if x ≤ y then x :: y :: ys else y :: insertSorted x ys

/-- Ascending insertion sort on rationals. -/
def sortRat (l : List ℚ) : List ℚ := l.foldr insertSorted []

/-- Median as `pandas.Series.median` computes it: middle element of the
sorted list for odd length, mean of the two middle elements for even. -/
def median (l : List ℚ) : ℚ :=
  let s := sortRat l
  let n := s.length
  if n % 2 = 1 then s.getD (n / 2) 0 else (s.getD (n / 2 - 1) 0 + s.getD (n / 2) 0) / 2

/-! ## Risk Confidence Calibrator
    (backend/app/services/ml/risk_vs_predict.py, `generate_prediction_response`)

The claims under verification all concern the part of
`generate_prediction_response` that runs after the feature-engineering and
`dropna` of lines 46-81, so a corpus is modelled as the list of rows that
survive that stage: each row carries the clipped min-max-normalised rolling
volatility (`risk`, line 63-64), the actual price, and the reconstructed
predicted price `predicted_price_recon` (line 77; in exact arithmetic
`prev * (1 + (pred - prev)/prev) = pred`). The later sort by risk
(line 113) only permutes rows and is dropped: every quantity proved about
is a per-tier aggregate that is invariant under permutation because
`median` sorts and `mean` sums. -/

/-- One validated corpus row of the calibration dataframe. -/
structure CalRow where
  risk : ℚ
  actual : ℚ
  pred : ℚ
deriving DecidableEq

/-- RISK_SUPPRESS_THRESHOLD = 0.85 (line 11). -/
def RISK_SUPPRESS_THRESHOLD : ℚ := 85 / 100

/-- Rows whose prediction survives the suppression of lines 84-86: rows with
`risk > RISK_SUPPRESS_THRESHOLD` get `predicted_price_recon = NaN` and are
excluded by `valid_mask` (line 89). -/
def validRows (rows : List CalRow) : List CalRow :=
  rows.filter (fun r => decide (r.risk ≤ RISK_SUPPRESS_THRESHOLD))

/-- np.isclose with rtol = atol = 1e-6 (line 95):
`|pred - actual| ≤ atol + rtol * |actual|`. -/
def isCloseTo (pred actual : ℚ) : Bool :=
  decide (|pred - actual| ≤ 1 / 1000000 + 1 / 1000000 * |actual|)

/-- Number of valid pairs whose reconstructed prediction matches the actual
price within the np.isclose tolerance. -/
def closeCount (rows : List CalRow) : ℕ :=
  ((validRows rows).filter (fun r => isCloseTo r.pred r.actual)).length

/-- Data-leakage guard of lines 93-97: fires when the valid pairs are
non-empty and their isclose fraction exceeds 1/2
(`mean(isclose) > 0.5  ↔  n < 2 * count`). -/
def leakageGuardFires (rows : List CalRow) : Bool :=
  let v := validRows rows
  !v.isEmpty && decide (v.length < 2 * closeCount rows)

/-- Absolute errors `|pred - actual|` over the valid rows (line 99). -/
def absErrorList (rows : List CalRow) : List ℚ :=
  (validRows rows).map (fun r => |r.pred - r.actual|)

/-- Absolute percentage errors (line 100): actual prices equal to 0 are
replaced by NaN and hence skipped by the `mean`/`median` aggregations. -/
def absErrorPctList (rows : List CalRow) : List ℚ :=
  ((validRows rows).filter (fun r => decide (r.actual ≠ 0))).map
    (fun r => |r.pred - r.actual| / r.actual * 100)

/-- mean_abs_error before the coercion step (line 102). -/
def meanAbsErrorRaw (rows : List CalRow) : ℚ :=
  let e := absErrorList rows
  if e.isEmpty then 0 else listMean e

/-- median_abs_error (line 103). -/
def medianAbsError (rows : List CalRow) : ℚ :=
  let e := absErrorList rows
  if e.isEmpty then 0 else median e

/-- mean_abs_error_pct (line 104). -/
def meanAbsErrorPct (rows : List CalRow) : ℚ :=
  let e := absErrorPctList rows
  if e.isEmpty then 0 else listMean e

/-- median_abs_error_pct (line 105). -/
def medianAbsErrorPct (rows : List CalRow) : ℚ :=
  let e := absErrorPctList rows
  if e.isEmpty then 0 else median e

/-- avg_predicted (line 107). -/
def avgPredicted (rows : List CalRow) : ℚ :=
  let v := validRows rows
  if v.isEmpty then 0 else listMean (v.map (fun r => r.pred))

/-- avg_actual (line 108). -/
def avgActual (rows : List CalRow) : ℚ :=
  let v := validRows rows
  if v.isEmpty then 0 else listMean (v.map (fun r => r.actual))

/-- suspicious_accuracy flag of lines 147-152: set when the mean absolute
error is positive yet below 1% of the average actual price, or when it is
exactly zero. -/
def suspiciousAccuracy (rows : List CalRow) : Bool :=
  let mae := meanAbsErrorRaw rows
  let avgA := avgActual rows
  (decide (0 < avgA) && decide (0 < mae) && decide (mae < 1 / 100 * avgA))
    || decide (mae = 0)

/-- mean_absolute_error after the coercion of lines 150-151: an exact zero
is replaced by 0.01. -/
def reportedMeanAbsError (rows : List CalRow) : ℚ :=
  let mae := meanAbsErrorRaw rows
  if mae = 0 then 1 / 100 else mae

/-- Low-risk tier mask (line 177): valid rows with risk < 0.3. -/
def lowTier (rows : List CalRow) : List CalRow :=
  (validRows rows).filter (fun r => decide (r.risk < 3 / 10))

/-- Medium-risk tier mask (line 178): valid rows with 0.3 ≤ risk < 0.7. -/
def medTier (rows : List CalRow) : List CalRow :=
  (validRows rows).filter (fun r => decide (3 / 10 ≤ r.risk) && decide (r.risk < 7 / 10))

/-- High-risk tier mask (line 179): valid rows with risk ≥ 0.7. -/
def highTier (rows : List CalRow) : List CalRow :=
  (validRows rows).filter (fun r => decide (7 / 10 ≤ r.risk))

/-- Per-tier percentage errors of `_zone_confidence` (lines 184-189): actual
prices equal to 0 become NaN and are dropped before the median. -/
def zoneErrPcts (tier : List CalRow) : List ℚ :=
  (tier.filter (fun r => decide (r.actual ≠ 0))).map
    (fun r => |r.pred - r.actual| / r.actual * 100)

/-- Clamped logistic decay exponent of `_confidence_from_error_pct`
(lines 168-170): `(error_pct - 15) / 5` clamped to [-100, 100]. -/
def decayClamp (errPct : ℚ) : ℚ := max (-100) (min 100 ((errPct - 15) / 5))

/-- Logistic confidence of `_confidence_from_error_pct` (lines 161-175):
`90 / (1 + exp((x - 15)/5))` clamped to [40, 90]. -/
noncomputable def confidenceFromErrorPct (errPct : ℚ) : ℝ :=
  max 40 (min 90 (90 / (1 + Real.exp ((decayClamp errPct : ℚ) : ℝ))))

/-- Embedding of `_zone_confidence` (lines 181-195): 40 for an empty tier or a tier with
no usable percentage error, otherwise the logistic confidence of the median
percentage error. -/
noncomputable def zoneConfidence (tier : List CalRow) : ℝ :=
  if tier.isEmpty then 40
  else
    let e := zoneErrPcts tier
    if e.isEmpty then 40 else confidenceFromErrorPct (median e)

/-- Monotonicity correction of lines 203-210: first raise medium above high
(re-clamped to 90), then raise low above the possibly-raised medium
(re-clamped to 90). Returns (low, medium, high). -/
noncomputable def enforceMonotonic (low med high : ℝ) : ℝ × ℝ × ℝ :=
  let med2 := if med ≤ high then min 90 (max med (high + 5)) else med
  let low2 := if low ≤ med2 then min 90 (max low (med2 + 5)) else low
  (low2, med2, high)

/-- risk_confidence block of the response (lines 249-253). -/
structure RiskConfidence where
  low : ℝ
  medium : ℝ
  high : ℝ

/-- statistics block of the response (lines 254-262). -/
structure CalStatistics where
  average_predicted : ℚ
  average_actual : ℚ
  mean_absolute_error : ℚ
  median_absolute_error : ℚ
  mean_absolute_error_pct : ℚ
  median_absolute_error_pct : ℚ
  confidence_score : ℝ

/-- The parts of the calibration response the claims are about
(lines 223-263); `warning` models whether warning_message is non-null. -/
structure CalOutput where
  suspicious_accuracy : Bool
  warning : Bool
  risk_confidence : RiskConfidence
  statistics : CalStatistics

/-- Global statistics confidence_score (lines 219-221): logistic confidence
of the median of the global percentage errors, with median error 100 when
the series is empty (line 220). -/
noncomputable def globalConfidenceScore (rows : List CalRow) : ℝ :=
  let e := absErrorPctList rows
  confidenceFromErrorPct (if e.isEmpty then 100 else median e)

/-- The response dictionary built once the leakage guard has passed. -/
noncomputable def mkCalOutput (rows : List CalRow) : CalOutput :=
  let c := enforceMonotonic (zoneConfidence (lowTier rows))
    (zoneConfidence (medTier rows)) (zoneConfidence (highTier rows))
  { suspicious_accuracy := suspiciousAccuracy rows
    warning := suspiciousAccuracy rows
    risk_confidence := { low := c.1, medium := c.2.1, high := c.2.2 }
    statistics :=
      { average_predicted := avgPredicted rows
        average_actual := avgActual rows
        mean_absolute_error := reportedMeanAbsError rows
        median_absolute_error := medianAbsError rows
        mean_absolute_error_pct := meanAbsErrorPct rows
        median_absolute_error_pct := medianAbsErrorPct rows
        confidence_score := globalConfidenceScore rows } }

/-- generate_prediction_response: raises (`Except.error`) when the
data-leakage guard fires (lines 93-97), otherwise returns the response. -/
noncomputable def generate_prediction_response (rows : List CalRow) :
    Except Unit CalOutput :=
  if leakageGuardFires rows then Except.error () else Except.ok (mkCalOutput rows)

/-! ## Concrete calibration corpora used in the analysis -/

/-- Corpus exercising the 90-ceiling collision of the monotonicity
correction: three low-risk rows with 0.5% error and one high-risk row with
zero error (only 1 of 4 valid pairs is isclose, so the leakage guard
stays quiet). -/
def corpusCap : List CalRow :=
  [⟨1/10, 100, 201/2⟩, ⟨1/10, 100, 201/2⟩, ⟨1/10, 100, 201/2⟩, ⟨3/4, 100, 100⟩]

/-- Corpus in which the reconstructed prediction equals the actual price on
9 of 10 valid rows (90%), the data-leakage scenario. -/
def corpusLeak : List CalRow :=
  [⟨0, 100, 100⟩, ⟨0, 100, 100⟩, ⟨0, 100, 100⟩, ⟨0, 100, 100⟩, ⟨0, 100, 100⟩,
   ⟨0, 100, 100⟩, ⟨0, 100, 100⟩, ⟨0, 100, 100⟩, ⟨0, 100, 100⟩, ⟨0, 100, 110⟩]

/-- Corpus whose only row is suppressed (risk 0.9 > 0.85): the valid set is
empty, so the raw mean absolute error is the 0.0 default. -/
def corpusSupp : List CalRow := [⟨9/10, 100, 50⟩]

/-! ## Ensemble forecaster, fallback and backtester
    (backend/app/services/ml/price_predictor.py, `predict_price`)

`get_historical` and `get_live_price` are external collaborators, so the
series and the live price are parameters. The statsmodels ARIMA/SARIMAX
fits (lines 53-58 on the full window, lines 108-109 on the training split)
are consumed only through try/except blocks, so each fitting attempt is
modelled as an `Option`-valued oracle: `some` carries the point forecast
and confidence-interval columns that a successful fit produced, `none`
models a raised exception. -/

/-- Point forecast plus confidence-interval columns of one fitted model. -/
structure Forecast where
  mean : List ℝ
  lower : List ℝ
  upper : List ℝ

/-- accuracy_metrics dictionary (lines 122-127). -/
structure AccuracyMetrics where
  rmse : ℝ
  mae : ℝ
  mape : ℝ
  test_size : ℕ

/-- Outcomes of the external fitting calls during one `predict_price`
invocation: the ensemble fit on the full window (ARIMA and SARIMAX
together, since a failure of either aborts the whole try block of
lines 52-81) and the backtest re-fit on the training split. -/
structure FitOracle where
  mainFit : Option (Forecast × Forecast)
  backtestFit : Option (Forecast × Forecast)

/-- Mean of a list of reals (`np.mean` / `pandas.Series.mean`). -/
noncomputable def listMeanR (l : List ℝ) : ℝ := l.sum / l.length

/-- Sample variance with the pandas default ddof = 1, used by
`historical.std()` (line 94) and `returns.std()` (line 145). -/
noncomputable def sampleVariance (l : List ℝ) : ℝ :=
  (l.map (fun x => (x - listMeanR l) ^ 2)).sum / (l.length - 1)

/-- Sample standard deviation (pandas `.std()`, ddof = 1). -/
noncomputable def sampleStd (l : List ℝ) : ℝ := Real.sqrt (sampleVariance l)

/-- Last `n` elements of a list (`pandas.Series.tail`). -/
def lastN (n : ℕ) (l : List ℝ) : List ℝ := l.drop (l.length - n)

/-- Fallback forecaster (lines 82-98): last price plus a damped trend
`(last - 5-point-trailing-mean)/10` times the step index, with bounds at
±1.96 sample standard deviations; returns the forecast and the forecast_std
column `np.full(steps, std)`. -/
noncomputable def fallbackForecast (hist : List ℝ) (steps : ℕ) : Forecast × List ℝ :=
  let last_price := (hist.getLast?).getD 0
  let ma := listMeanR (lastN 5 hist)
  let trend := (last_price - ma) / 10
  let fc := (List.range steps).map (fun i : ℕ => last_price + trend * ((i : ℝ) + 1))
  let std := sampleStd hist
  (⟨fc, fc.map (fun x => x - 196 / 100 * std), fc.map (fun x => x + 196 / 100 * std)⟩,
   List.replicate steps std)

/-- np.std over the two point forecasts at one step (line 80):
population standard deviation of the two values. -/
noncomputable def npStdTwo (a b : ℝ) : ℝ :=
  Real.sqrt (((a - (a + b) / 2) ^ 2 + (b - (a + b) / 2) ^ 2) / 2)

/-- Ensemble combination (lines 72-80): pointwise mean of the two point
forecasts and of the two interval columns, plus the per-step disagreement
standard deviation. -/
noncomputable def ensembleForecast (af sf : Forecast) : Forecast × List ℝ :=
  (⟨List.zipWith (fun a b => (a + b) / 2) af.mean sf.mean,
    List.zipWith (fun a b => (a + b) / 2) af.lower sf.lower,
    List.zipWith (fun a b => (a + b) / 2) af.upper sf.upper⟩,
   List.zipWith npStdTwo af.mean sf.mean)

/-- sklearn's epsilon in mean_absolute_percentage_error:
`np.finfo(np.float64).eps = 2⁻⁵²`. -/
noncomputable def skEps : ℝ := 1 / 2 ^ 52

/-- Chronological 80/20 split point `int(len(historical) * 0.8)`
(line 102); for the window sizes reachable here (≤ 121) the float product
rounds to the exact value, so this is ⌊4n/5⌋. -/
def trainSize (n : ℕ) : ℕ := n * 4 / 5

/-- Backtester (lines 101-132): split at `trainSize`, re-fit both
sub-models on the training part (the oracle), forecast `len(test)` steps,
average the two forecasts and report RMSE/MAE/MAPE/test size; `none` when
the test part is empty or the re-fit raised. -/
noncomputable def backtestMetrics (hist : List ℝ)
    (fits : Option (Forecast × Forecast)) : Option AccuracyMetrics :=
  let test := hist.drop (trainSize hist.length)
  match fits with
  | none => none
  | some (af, sf) =>
    if test.length = 0 then none
    else
      let fc := List.zipWith (fun a b => (a + b) / 2) af.mean sf.mean
      let errs := List.zipWith (fun t f => t - f) test fc
      some
        { rmse := Real.sqrt (listMeanR (errs.map (fun e => e ^ 2)))
          mae := listMeanR (errs.map (fun e => |e|))
          mape := listMeanR (List.zipWith (fun t f => |t - f| / max skEps |t|) test fc) * 100
          test_size := test.length }

/-- Annualized percentage volatility (lines 144-145): sample standard
deviation of the percentage changes, times √252, times 100. -/
noncomputable def annualizedVolatility (hist : List ℝ) : ℝ :=
  let returns := List.zipWith (fun prev cur => (cur - prev) / prev) hist (hist.drop 1)
  if 0 < returns.length then sampleStd returns * Real.sqrt 252 * 100 else 0

/-- Mean prediction-interval width as a percentage of the mean point
forecast (lines 150-152), 0 when the mean forecast is 0. -/
noncomputable def intervalWidthPct (fc lower upper : List ℝ) : ℝ :=
  let avg_fc := listMeanR fc
  let avg_width := listMeanR (List.zipWith (fun u l => u - l) upper lower)
  if avg_fc ≠ 0 then avg_width / avg_fc * 100 else 0

/-- Embedding of `_calculate_confidence_score` (lines 255-275): start at 100, subtract
`interval_width_pct * 2.0`, subtract `volatility * 0.5`, subtract the raw
MAPE when accuracy metrics carrying one are present, clamp to [10, 95]. -/
noncomputable def calculate_confidence_score (interval_width_pct volatility : ℝ)
    (accuracy_metrics : Option AccuracyMetrics) : ℝ :=
  let score := 100 - interval_width_pct * 2 - volatility * 0.5
  let score :=
    match accuracy_metrics with
    | some m => score - m.mape
    | none => score
  max 10 (min 95 score)

/-- The parts of the `predict_price` response dictionary (lines 161-196)
the claims are about. -/
structure PredictResult where
  live_price : ℝ
  forecast_mean : List ℝ
  forecast_lower : List ℝ
  forecast_upper : List ℝ
  forecast_std : List ℝ
  volatility : ℝ
  confidence_score : ℝ
  accuracy_metrics : Option AccuracyMetrics

/-- Embedding of `predict_price` (lines 17-196): append the live price, truncate to the
last 120 observations, take the ensemble path when the fits succeed and
the fallback otherwise, then run the backtest block (lines 101-132), which
executes in both cases and overwrites the `accuracy_metrics = None` set in
the except branch (line 99). -/
noncomputable def predict_price (hist0 : List ℝ) (live : ℝ) (steps : ℕ)
    (fits : FitOracle) : PredictResult :=
  let historical := lastN 120 (hist0 ++ [live])
  let fcs :=
    match fits.mainFit with
    | some (af, sf) => ensembleForecast af sf
    | none => fallbackForecast historical steps
  let accuracy_metrics := backtestMetrics historical fits.backtestFit
  let vol := annualizedVolatility historical
  let iw := intervalWidthPct fcs.1.mean fcs.1.lower fcs.1.upper
  { live_price := live
    forecast_mean := fcs.1.mean
    forecast_lower := fcs.1.lower
    forecast_upper := fcs.1.upper
    forecast_std := fcs.2
    volatility := vol
    confidence_score := calculate_confidence_score iw vol accuracy_metrics
    accuracy_metrics := accuracy_metrics }

/-! ## Concrete predict_price scenarios used in the analysis -/

/-- Oracle for the C3 failing input: the ensemble fit raises while the
backtest re-fit succeeds, with two-step backtest forecast columns matching
`len(test) = 2` for the six-point appended window. -/
noncomputable def fitsFallbackBacktestOk : FitOracle :=
  { mainFit := none
    backtestFit := some (⟨[7, 7], [6, 6], [8, 8]⟩, ⟨[9, 9], [8, 8], [10, 10]⟩) }

/-- Oracle in which every fitting attempt raises. -/
noncomputable def fitsAllFail : FitOracle := { mainFit := none, backtestFit := none }

/-- Oracle whose ensemble fit succeeds with constant 100 forecasts of
length 10 (used on a 5-point series to show no length guard exists). -/
noncomputable def fitsShortSeriesOk : FitOracle :=
  { mainFit := some (⟨List.replicate 10 100, List.replicate 10 90, List.replicate 10 110⟩,
      ⟨List.replicate 10 100, List.replicate 10 90, List.replicate 10 110⟩)
    backtestFit := none }

/-- Oracle for the ensemble-combination witness: single-step forecasts
(1, [0,2]) and (3, [2,4]). -/
noncomputable def fitsEnsembleDemo : FitOracle :=
  { mainFit := some (⟨[1], [0], [2]⟩, ⟨[3], [2], [4]⟩)
    backtestFit := none }

/-! ## Order Selector
    (backend/app/services/model_trainer.py, `ModelTrainer.find_best_arima_order`)

The ARIMA fit inside the grid search is external; it is modelled as a
function from an order to `Option ℚ`: `some aic` for a successful fit with
that information criterion, `none` when the fit raised (the inner
`except Exception: continue`). -/

/-- The search grid: every (p, d, q) with p ≤ max_p, d ≤ max_d, q ≤ max_q,
enumerated in the loop order of lines 45-47. -/
def gridOrders (max_p max_d max_q : ℕ) : List (ℕ × ℕ × ℕ) :=
  (List.range (max_p + 1)).flatMap (fun p =>
    (List.range (max_d + 1)).flatMap (fun d =>
      (List.range (max_q + 1)).map (fun q => (p, d, q))))

/-- One iteration of the grid-search loop (lines 48-55): keep the
previous best on a failed fit, otherwise keep the order with the strictly
smaller AIC (`best_aic` starts at +∞, modelled by `none`). -/
def arimaStep (fitAIC : ℕ × ℕ × ℕ → Option ℚ)
    (best : (ℕ × ℕ × ℕ) × Option ℚ) (o : ℕ × ℕ × ℕ) : (ℕ × ℕ × ℕ) × Option ℚ :=
  match fitAIC o with
  | none => best
  | some a =>
    match best.2 with
    | none => (o, some a)
    | some b => if a < b then (o, some a) else best

/-- Embedding of `find_best_arima_order` (lines 41-58): fold the loop body over the
grid, starting from the default order (1, 1, 1) with infinite best AIC. -/
def find_best_arima_order (fitAIC : ℕ × ℕ × ℕ → Option ℚ)
    (max_p max_d max_q : ℕ) : ℕ × ℕ × ℕ :=
  ((gridOrders max_p max_d max_q).foldl (arimaStep fitAIC) ((1, 1, 1), none)).1

/-! ## Basic facts about the calibrator -/

lemma confidenceFromErrorPct_ge (e : ℚ) : 40 ≤ confidenceFromErrorPct e :=
  le_max_left _ _

lemma confidenceFromErrorPct_lt (e : ℚ) : confidenceFromErrorPct e < 90 := by
  unfold confidenceFromErrorPct
  have hE := Real.exp_pos ((decayClamp e : ℚ) : ℝ)
  have hx : 90 / (1 + Real.exp ((decayClamp e : ℚ) : ℝ)) < 90 := by
    rw [div_lt_iff₀ (by linarith)]
    nlinarith
  exact max_lt (by norm_num) (lt_of_le_of_lt (min_le_right _ _) hx)

lemma zoneConfidence_ge (t : List CalRow) : 40 ≤ zoneConfidence t := by
  unfold zoneConfidence
  dsimp only
  split_ifs
  · norm_num
  · norm_num
  · exact confidenceFromErrorPct_ge _

lemma zoneConfidence_lt (t : List CalRow) : zoneConfidence t < 90 := by
  unfold zoneConfidence
  dsimp only
  split_ifs
  · norm_num
  · norm_num
  · exact confidenceFromErrorPct_lt _

/-- Split `enforceMonotonic` for reasoning: the corrected medium value. -/
lemma enforceMonotonic_eq (low med high : ℝ) :
    enforceMonotonic low med high =
      ((fun med2 => if low ≤ med2 then min 90 (max low (med2 + 5)) else low)
        (if med ≤ high then min 90 (max med (high + 5)) else med),
       (if med ≤ high then min 90 (max med (high + 5)) else med), high) := rfl

lemma correctedMed_spec (med high : ℝ) (hm1 : 40 ≤ med) (hm2 : med < 90)
    (hh1 : 40 ≤ high) (hh2 : high < 90) :
    let med2 := if med ≤ high then min 90 (max med (high + 5)) else med
    40 ≤ med2 ∧ med2 ≤ 90 ∧ high < med2 ∧ med ≤ med2 := by
  dsimp only
  split_ifs with h1
  · refine ⟨le_min (by norm_num) (le_trans (by linarith) (le_max_right _ _)),
      min_le_left _ _,
      lt_min (by linarith) (lt_of_lt_of_le (by linarith) (le_max_right _ _)),
      le_min (by linarith) (le_max_left _ _)⟩
  · exact ⟨hm1, by linarith, by linarith [lt_of_not_le h1], le_refl _⟩

lemma correctedLow_spec (low med2 : ℝ) (hl1 : 40 ≤ low) (hl2 : low < 90)
    (hm1 : 40 ≤ med2) (hm2 : med2 ≤ 90) :
    let low2 := if low ≤ med2 then min 90 (max low (med2 + 5)) else low
    40 ≤ low2 ∧ low2 ≤ 90 ∧ med2 ≤ low2 ∧ (med2 < 90 → med2 < low2) ∧ low ≤ low2 := by
  dsimp only
  split_ifs with h2
  · refine ⟨le_min (by norm_num) (le_trans (by linarith) (le_max_right _ _)),
      min_le_left _ _,
      le_min hm2 (le_trans (by linarith) (le_max_right _ _)),
      fun h90 => lt_min h90 (lt_of_lt_of_le (by linarith) (le_max_right _ _)),
      le_min (by linarith) (le_max_left _ _)⟩
  · exact ⟨hl1, by linarith, by linarith [lt_of_not_le h2],
      fun _ => lt_of_not_le h2, le_refl _⟩

lemma gen_ok {rows : List CalRow} {out : CalOutput}
    (h : generate_prediction_response rows = Except.ok out) :
    out = mkCalOutput rows := by
  unfold generate_prediction_response at h
  by_cases hg : leakageGuardFires rows = true
  · rw [if_pos hg] at h
    cases h
  · rw [if_neg hg] at h
    exact (Except.ok.inj h).symm

lemma gen_of_guard_false {rows : List CalRow}
    (h : leakageGuardFires rows = false) :
    generate_prediction_response rows = Except.ok (mkCalOutput rows) := by
  simp [generate_prediction_response, h]

lemma mkCalOutput_risk_confidence (rows : List CalRow) :
    (mkCalOutput rows).risk_confidence.high = zoneConfidence (highTier rows) ∧
    (mkCalOutput rows).risk_confidence.medium =
      (if zoneConfidence (medTier rows) ≤ zoneConfidence (highTier rows)
       then min 90 (max (zoneConfidence (medTier rows)) (zoneConfidence (highTier rows) + 5))
       else zoneConfidence (medTier rows)) ∧
    (mkCalOutput rows).risk_confidence.low =
      (if zoneConfidence (lowTier rows) ≤ (mkCalOutput rows).risk_confidence.medium
       then min 90 (max (zoneConfidence (lowTier rows)) ((mkCalOutput rows).risk_confidence.medium + 5))
       else zoneConfidence (lowTier rows)) := by
  refine ⟨rfl, rfl, rfl⟩

/-- C1 (corrected). The strict ordering claim fails at the 90 ceiling; this
theorem proves the amended form: after calibration the map always satisfies
`low ≥ medium > high` with every tier confidence inside [40, 90], and
`low > medium` strictly whenever the corrected medium is below 90. -/
theorem C1_risk_confidence_order (rows : List CalRow) (out : CalOutput)
    (h : generate_prediction_response rows = Except.ok out) :
    40 ≤ out.risk_confidence.high ∧ out.risk_confidence.high ≤ 90 ∧
    40 ≤ out.risk_confidence.medium ∧ out.risk_confidence.medium ≤ 90 ∧
    40 ≤ out.risk_confidence.low ∧ out.risk_confidence.low ≤ 90 ∧
    out.risk_confidence.high < out.risk_confidence.medium ∧
    out.risk_confidence.medium ≤ out.risk_confidence.low ∧
    (out.risk_confidence.medium < 90 →
      out.risk_confidence.medium < out.risk_confidence.low) := by
  rcases gen_ok h with rfl
  obtain ⟨hH, hM, hL⟩ := mkCalOutput_risk_confidence rows
  have hhg := zoneConfidence_ge (highTier rows)
  have hhl := zoneConfidence_lt (highTier rows)
  have hmg := zoneConfidence_ge (medTier rows)
  have hml := zoneConfidence_lt (medTier rows)
  have hlg := zoneConfidence_ge (lowTier rows)
  have hll := zoneConfidence_lt (lowTier rows)
  obtain ⟨hm1, hm2, hm3, _⟩ := correctedMed_spec (zoneConfidence (medTier rows))
    (zoneConfidence (highTier rows)) hmg hml hhg hhl
  rw [← hM] at hm1 hm2 hm3
  obtain ⟨hl1, hl2, hl3, hl4, _⟩ := correctedLow_spec (zoneConfidence (lowTier rows))
    (mkCalOutput rows).risk_confidence.medium hlg hll hm1 hm2
  rw [← hL] at hl1 hl2 hl3 hl4
  exact ⟨hH ▸ hhg, hH ▸ le_of_lt hhl, hm1, hm2, hl1, hl2, hH ▸ hm3, hl3, hl4⟩

/-- C9 (confirmed). The monotonicity correction never changes the High
tier's confidence: the returned high value is exactly the raw
`_zone_confidence` of the High tier (the logistic of the tier's median
percentage error, 40 when the tier is empty), and the correction can only
raise — never lower — the medium and low values. -/
theorem C9_high_tier_frame (rows : List CalRow) (out : CalOutput)
    (h : generate_prediction_response rows = Except.ok out) :
    out.risk_confidence.high = zoneConfidence (highTier rows) ∧
    (highTier rows = [] → out.risk_confidence.high = 40) ∧
    ((highTier rows).isEmpty = false → (zoneErrPcts (highTier rows)).isEmpty = false →
      out.risk_confidence.high =
        confidenceFromErrorPct (median (zoneErrPcts (highTier rows)))) ∧
    zoneConfidence (medTier rows) ≤ out.risk_confidence.medium ∧
    zoneConfidence (lowTier rows) ≤ out.risk_confidence.low := by
  rcases gen_ok h with rfl
  obtain ⟨hH, hM, hL⟩ := mkCalOutput_risk_confidence rows
  have hhg := zoneConfidence_ge (highTier rows)
  have hhl := zoneConfidence_lt (highTier rows)
  have hmg := zoneConfidence_ge (medTier rows)
  have hml := zoneConfidence_lt (medTier rows)
  have hlg := zoneConfidence_ge (lowTier rows)
  have hll := zoneConfidence_lt (lowTier rows)
  obtain ⟨hm1, hm2, _, hm4⟩ := correctedMed_spec (zoneConfidence (medTier rows))
    (zoneConfidence (highTier rows)) hmg hml hhg hhl
  rw [← hM] at hm1 hm2 hm4
  obtain ⟨_, _, _, _, hl5⟩ := correctedLow_spec (zoneConfidence (lowTier rows))
    (mkCalOutput rows).risk_confidence.medium hlg hll hm1 hm2
  rw [← hL] at hl5
  refine ⟨hH, ?_, ?_, hm4, hl5⟩
  · intro he
    rw [hH]
    unfold zoneConfidence
    simp [he]
  · intro he1 he2
    rw [hH]
    unfold zoneConfidence
    simp only [he1, he2, Bool.false_eq_true, if_false]

lemma leakage_guard_characterisation :
    ∀ rows : List CalRow,
      (generate_prediction_response rows = Except.error ()) ↔
        (validRows rows).length < 2 * closeCount rows := by
  intro rows
  have hcc : closeCount rows ≤ (validRows rows).length := List.length_filter_le _ _
  constructor
  · intro h
    unfold generate_prediction_response at h
    by_cases hg : leakageGuardFires rows = true
    · unfold leakageGuardFires at hg
      simp only [Bool.and_eq_true, decide_eq_true_eq] at hg
      exact hg.2
    · rw [if_neg hg] at h
      cases h
  · intro hlt
    have hne : validRows rows ≠ [] := by
      intro hnil
      rw [hnil] at hcc hlt
      simp at hcc
      omega
    have hg : leakageGuardFires rows = true := by
      unfold leakageGuardFires
      simp only [Bool.and_eq_true, Bool.not_eq_true', decide_eq_true_eq]
      exact ⟨by simpa [List.isEmpty_iff] using hne, hlt⟩
    simp [generate_prediction_response, hg]

/-! ## Evaluation of the concrete corpora -/

lemma isCloseTo_half : isCloseTo (201 / 2 : ℚ) 100 = false := by
  norm_num [isCloseTo, abs_le]

lemma isCloseTo_same : isCloseTo (100 : ℚ) 100 = true := by
  norm_num [isCloseTo, abs_le]

lemma isCloseTo_ten_off : isCloseTo (110 : ℚ) 100 = false := by
  norm_num [isCloseTo, abs_le]

lemma corpusCap_valid : validRows corpusCap = corpusCap := by
  norm_num [validRows, corpusCap, RISK_SUPPRESS_THRESHOLD, List.filter]

lemma corpusCap_guard : leakageGuardFires corpusCap = false := by
  have hc : closeCount corpusCap = 1 := by
    rw [closeCount, corpusCap_valid]
    simp only [corpusCap, List.filter, isCloseTo_half, isCloseTo_same]
    rfl
  rw [leakageGuardFires]
  simp only [corpusCap_valid, hc]
  simp [corpusCap]

lemma gen_corpusCap :
    generate_prediction_response corpusCap = Except.ok (mkCalOutput corpusCap) :=
  gen_of_guard_false corpusCap_guard

lemma corpusCap_medTier : medTier corpusCap = [] := by
  rw [medTier, corpusCap_valid]
  norm_num [corpusCap, List.filter]

lemma corpusCap_highTier : highTier corpusCap = [⟨3 / 4, 100, 100⟩] := by
  rw [highTier, corpusCap_valid]
  norm_num [corpusCap, List.filter]

lemma corpusCap_highErrs : zoneErrPcts [(⟨3 / 4, 100, 100⟩ : CalRow)] = [0] := by
  norm_num [zoneErrPcts, List.filter]

lemma median_single_zero : median [(0 : ℚ)] = 0 := by
  norm_num [median, sortRat, insertSorted]

lemma seventeen_le_exp_three : (17 : ℝ) ≤ Real.exp 3 := by
  have h1 : (2.7182818283 : ℝ) < Real.exp 1 := Real.exp_one_gt_d9
  have h3 : Real.exp 1 ^ (3 : ℕ) = Real.exp 3 := by
    rw [← Real.exp_nat_mul]
    norm_num
  have h4 : (2.7182818283 : ℝ) ^ (3 : ℕ) < Real.exp 1 ^ (3 : ℕ) :=
    pow_lt_pow_left₀ h1 (by norm_num) (by norm_num)
  rw [h3] at h4
  nlinarith

lemma conf_zero_ge85 : (85 : ℝ) ≤ confidenceFromErrorPct 0 := by
  have hd : decayClamp 0 = -3 := by
    norm_num [decayClamp, min_def, max_def]
  rw [confidenceFromErrorPct, hd]
  push_cast
  have hE : Real.exp (-3 : ℝ) ≤ 1 / 17 := by
    rw [Real.exp_neg]
    have h17 : (0 : ℝ) < 17 := by norm_num
    calc (Real.exp 3)⁻¹ ≤ 17⁻¹ := by
          apply inv_anti₀ h17 seventeen_le_exp_three
      _ = 1 / 17 := by norm_num
  have hpos : (0 : ℝ) < 1 + Real.exp (-3 : ℝ) := by positivity
  have hy85 : (85 : ℝ) ≤ 90 / (1 + Real.exp (-3 : ℝ)) := by
    rw [le_div_iff₀ hpos]
    nlinarith
  exact le_trans (le_min (by norm_num) hy85) (le_max_right _ _)

lemma corpusCap_highConf_ge : (85 : ℝ) ≤ zoneConfidence (highTier corpusCap) := by
  rw [corpusCap_highTier, zoneConfidence]
  simp [corpusCap_highErrs, median_single_zero, conf_zero_ge85]

lemma corpusCap_medConf : zoneConfidence (medTier corpusCap) = 40 := by
  rw [corpusCap_medTier]
  simp [zoneConfidence]

lemma corpusCap_medium : (mkCalOutput corpusCap).risk_confidence.medium = 90 := by
  obtain ⟨_, hM, _⟩ := mkCalOutput_risk_confidence corpusCap
  have hge := corpusCap_highConf_ge
  rw [hM, corpusCap_medConf, if_pos (by linarith),
    max_eq_right (by linarith), min_eq_left (by linarith)]

lemma corpusCap_low : (mkCalOutput corpusCap).risk_confidence.low = 90 := by
  obtain ⟨_, _, hL⟩ := mkCalOutput_risk_confidence corpusCap
  have hllt := zoneConfidence_lt (lowTier corpusCap)
  rw [hL, corpusCap_medium, if_pos (le_of_lt hllt),
    max_eq_right (by linarith), min_eq_left (by norm_num)]

/-- C1 counterexample: the corpus `corpusCap` completes calibration (the
leakage guard does not fire), yet the returned risk-confidence map has
low = medium = 90, refuting the claimed strict ordering low > medium >
high. -/
theorem C1_strict_order_cex :
    generate_prediction_response corpusCap = Except.ok (mkCalOutput corpusCap) ∧
    (mkCalOutput corpusCap).risk_confidence.medium = 90 ∧
    (mkCalOutput corpusCap).risk_confidence.low = 90 ∧
    ¬((mkCalOutput corpusCap).risk_confidence.high <
        (mkCalOutput corpusCap).risk_confidence.medium ∧
      (mkCalOutput corpusCap).risk_confidence.medium <
        (mkCalOutput corpusCap).risk_confidence.low) := by
  refine ⟨gen_corpusCap, corpusCap_medium, corpusCap_low, ?_⟩
  rw [corpusCap_medium, corpusCap_low]
  simp

/-- Witness for C1's amended theorem at the concrete corpus `corpusCap`. -/
theorem C1_risk_confidence_order_witness :
    40 ≤ (mkCalOutput corpusCap).risk_confidence.high ∧
    (mkCalOutput corpusCap).risk_confidence.high ≤ 90 ∧
    40 ≤ (mkCalOutput corpusCap).risk_confidence.medium ∧
    (mkCalOutput corpusCap).risk_confidence.medium ≤ 90 ∧
    40 ≤ (mkCalOutput corpusCap).risk_confidence.low ∧
    (mkCalOutput corpusCap).risk_confidence.low ≤ 90 ∧
    (mkCalOutput corpusCap).risk_confidence.high <
      (mkCalOutput corpusCap).risk_confidence.medium ∧
    (mkCalOutput corpusCap).risk_confidence.medium ≤
      (mkCalOutput corpusCap).risk_confidence.low ∧
    ((mkCalOutput corpusCap).risk_confidence.medium < 90 →
      (mkCalOutput corpusCap).risk_confidence.medium <
        (mkCalOutput corpusCap).risk_confidence.low) :=
  C1_risk_confidence_order corpusCap (mkCalOutput corpusCap) gen_corpusCap

/-- Witness for C9 at the concrete corpus `corpusCap`. -/
theorem C9_high_tier_frame_witness :
    (mkCalOutput corpusCap).risk_confidence.high =
      zoneConfidence (highTier corpusCap) ∧
    (highTier corpusCap = [] → (mkCalOutput corpusCap).risk_confidence.high = 40) ∧
    ((highTier corpusCap).isEmpty = false →
      (zoneErrPcts (highTier corpusCap)).isEmpty = false →
      (mkCalOutput corpusCap).risk_confidence.high =
        confidenceFromErrorPct (median (zoneErrPcts (highTier corpusCap)))) ∧
    zoneConfidence (medTier corpusCap) ≤ (mkCalOutput corpusCap).risk_confidence.medium ∧
    zoneConfidence (lowTier corpusCap) ≤ (mkCalOutput corpusCap).risk_confidence.low :=
  C9_high_tier_frame corpusCap (mkCalOutput corpusCap) gen_corpusCap

lemma corpusLeak_valid : validRows corpusLeak = corpusLeak := by
  norm_num [validRows, corpusLeak, RISK_SUPPRESS_THRESHOLD, List.filter]

lemma corpusLeak_guard : leakageGuardFires corpusLeak = true := by
  have hc : closeCount corpusLeak = 9 := by
    rw [closeCount, corpusLeak_valid]
    simp only [corpusLeak, List.filter, isCloseTo_same, isCloseTo_ten_off]
    rfl
  rw [leakageGuardFires]
  simp only [corpusLeak_valid, hc]
  simp [corpusLeak]

/-- C7 (confirmed). The calibration run raises if and only if strictly more
than half of the valid (non-suppressed) pairs have reconstructed predicted
price within the np.isclose tolerance of the actual price; in particular
the corpus `corpusLeak`, where prediction equals actual on 90% of rows,
makes the run fail. -/
theorem C7_leakage_guard_iff :
    (∀ rows : List CalRow,
      (generate_prediction_response rows = Except.error ()) ↔
        (validRows rows).length < 2 * closeCount rows) ∧
    generate_prediction_response corpusLeak = Except.error () := by
  refine ⟨leakage_guard_characterisation, ?_⟩
  simp [generate_prediction_response, corpusLeak_guard]

lemma meanAbsErrorRaw_nonneg (rows : List CalRow) : 0 ≤ meanAbsErrorRaw rows := by
  rw [meanAbsErrorRaw]
  split_ifs with h
  · exact le_refl 0
  · rw [listMean]
    apply div_nonneg
    · apply List.sum_nonneg
      intro x hx
      rw [absErrorList] at hx
      simp only [List.mem_map] at hx
      obtain ⟨r, _, rfl⟩ := hx
      exact abs_nonneg _
    · exact Nat.cast_nonneg _

/-- C10 (confirmed). The calibrator never reports a mean absolute error of
exactly zero: a raw value of 0.0 is coerced to 0.01 with the
suspicious-accuracy flag set, and the flag is also set whenever the raw
value is positive but below 1% of the average actual price. -/
theorem C10_mae_coercion (rows : List CalRow) (out : CalOutput)
    (h : generate_prediction_response rows = Except.ok out) :
    0 < out.statistics.mean_absolute_error ∧
    (meanAbsErrorRaw rows = 0 →
      out.statistics.mean_absolute_error = 1 / 100 ∧
      out.suspicious_accuracy = true) ∧
    (0 < meanAbsErrorRaw rows → meanAbsErrorRaw rows < 1 / 100 * avgActual rows →
      out.suspicious_accuracy = true) := by
  rcases gen_ok h with rfl
  have hout1 : (mkCalOutput rows).statistics.mean_absolute_error =
      reportedMeanAbsError rows := rfl
  have hout2 : (mkCalOutput rows).suspicious_accuracy = suspiciousAccuracy rows := rfl
  have hnn := meanAbsErrorRaw_nonneg rows
  refine ⟨?_, ?_, ?_⟩
  · rw [hout1, reportedMeanAbsError]
    split_ifs with h0
    · norm_num
    · exact lt_of_le_of_ne hnn (Ne.symm h0)
  · intro h0
    rw [hout1, hout2, reportedMeanAbsError, suspiciousAccuracy]
    rw [if_pos h0]
    simp [h0]
  · intro hpos hlt
    rw [hout2, suspiciousAccuracy]
    have havg : 0 < avgActual rows := by linarith
    simp only [Bool.or_eq_true, Bool.and_eq_true, decide_eq_true_eq]
    exact Or.inl ⟨⟨havg, hpos⟩, hlt⟩

lemma corpusSupp_valid : validRows corpusSupp = [] := by
  norm_num [validRows, corpusSupp, RISK_SUPPRESS_THRESHOLD, List.filter]

lemma corpusSupp_guard : leakageGuardFires corpusSupp = false := by
  rw [leakageGuardFires]
  simp [corpusSupp_valid]

lemma gen_corpusSupp :
    generate_prediction_response corpusSupp = Except.ok (mkCalOutput corpusSupp) :=
  gen_of_guard_false corpusSupp_guard

lemma corpusSupp_mae : meanAbsErrorRaw corpusSupp = 0 := by
  rw [meanAbsErrorRaw]
  simp [absErrorList, corpusSupp_valid]

/-- Witness for C10 at the concrete corpus `corpusSupp`, whose raw mean
absolute error is the 0.0 default. -/
theorem C10_mae_coercion_witness :
    0 < (mkCalOutput corpusSupp).statistics.mean_absolute_error ∧
    (mkCalOutput corpusSupp).statistics.mean_absolute_error = 1 / 100 ∧
    (mkCalOutput corpusSupp).suspicious_accuracy = true := by
  have H := C10_mae_coercion corpusSupp (mkCalOutput corpusSupp) gen_corpusSupp
  exact ⟨H.1, (H.2.1 corpusSupp_mae).1, (H.2.1 corpusSupp_mae).2⟩

/-! ## Confidence scorer and ensemble forecaster -/

/-- C2 (confirmed). The engine confidence score equals 100 minus twice the
interval-width percentage, minus half the volatility, minus the raw MAPE
when accuracy metrics are present, clamped to [10, 95]; in particular the
score always lies in [10, 95]. -/
theorem C2_confidence_score_formula (iw vol : ℝ) (am : Option AccuracyMetrics) :
    calculate_confidence_score iw vol am =
      max 10 (min 95 (100 - iw * 2 - vol * 0.5 - (am.map (fun m => m.mape)).getD 0)) ∧
    10 ≤ calculate_confidence_score iw vol am ∧
    calculate_confidence_score iw vol am ≤ 95 := by
  have key : ∀ s : ℝ, 10 ≤ max 10 (min 95 s) ∧ max 10 (min 95 s) ≤ 95 :=
    fun s => ⟨le_max_left _ _, max_le (by norm_num) (min_le_left _ _)⟩
  cases am with
  | none =>
    have heq : calculate_confidence_score iw vol none =
        max 10 (min 95 (100 - iw * 2 - vol * 0.5)) := rfl
    rw [heq]
    have harg : (100 - iw * 2 - vol * 0.5 -
        ((Option.map (fun m => m.mape) (none : Option AccuracyMetrics)).getD 0)) =
        100 - iw * 2 - vol * 0.5 := by
      simp
    rw [harg]
    exact ⟨rfl, (key _).1, (key _).2⟩
  | some m =>
    have heq : calculate_confidence_score iw vol (some m) =
        max 10 (min 95 (100 - iw * 2 - vol * 0.5 - m.mape)) := rfl
    rw [heq]
    have harg : ((Option.map (fun m => m.mape) (some m)).getD 0) = m.mape := by simp
    rw [harg]
    exact ⟨rfl, (key _).1, (key _).2⟩

lemma npStdTwo_eq (a b : ℝ) : npStdTwo a b = |a - b| / 2 := by
  rw [npStdTwo]
  have h : ((a - (a + b) / 2) ^ 2 + (b - (a + b) / 2) ^ 2) / 2 = ((a - b) / 2) ^ 2 := by
    ring
  rw [h, Real.sqrt_sq_eq_abs, abs_div]
  norm_num

lemma predict_price_main (hist0 : List ℝ) (live : ℝ) (steps : ℕ)
    (fits : FitOracle) (af sf : Forecast) (hfit : fits.mainFit = some (af, sf)) :
    (predict_price hist0 live steps fits).forecast_mean =
        List.zipWith (fun a b => (a + b) / 2) af.mean sf.mean ∧
    (predict_price hist0 live steps fits).forecast_lower =
        List.zipWith (fun a b => (a + b) / 2) af.lower sf.lower ∧
    (predict_price hist0 live steps fits).forecast_upper =
        List.zipWith (fun a b => (a + b) / 2) af.upper sf.upper ∧
    (predict_price hist0 live steps fits).forecast_std =
        List.zipWith npStdTwo af.mean sf.mean := by
  simp [predict_price, hfit, ensembleForecast]

/-- C5 (confirmed). When both sub-model fits succeed, the ensemble point
forecast, lower bound and upper bound at every step are the arithmetic
means of the two sub-models' corresponding values, and the reported
std_dev is the (population) standard deviation of the two point forecasts,
which equals half the absolute disagreement. -/
theorem C5_ensemble_combination (hist0 : List ℝ) (live : ℝ) (steps : ℕ)
    (fits : FitOracle) (af sf : Forecast) (hfit : fits.mainFit = some (af, sf))
    (i : ℕ) (h1 : i < af.mean.length) (h2 : i < sf.mean.length)
    (h3 : i < af.lower.length) (h4 : i < sf.lower.length)
    (h5 : i < af.upper.length) (h6 : i < sf.upper.length) :
    (predict_price hist0 live steps fits).forecast_mean.getD i 0 =
      (af.mean[i] + sf.mean[i]) / 2 ∧
    (predict_price hist0 live steps fits).forecast_lower.getD i 0 =
      (af.lower[i] + sf.lower[i]) / 2 ∧
    (predict_price hist0 live steps fits).forecast_upper.getD i 0 =
      (af.upper[i] + sf.upper[i]) / 2 ∧
    (predict_price hist0 live steps fits).forecast_std.getD i 0 =
      npStdTwo af.mean[i] sf.mean[i] ∧
    (predict_price hist0 live steps fits).forecast_std.getD i 0 =
      |af.mean[i] - sf.mean[i]| / 2 := by
  obtain ⟨hm, hl, hu, hs⟩ := predict_price_main hist0 live steps fits af sf hfit
  rw [hm, hl, hu, hs]
  have bm : i < (List.zipWith (fun a b : ℝ => (a + b) / 2) af.mean sf.mean).length := by
    simp only [List.length_zipWith]
    omega
  have bl : i < (List.zipWith (fun a b : ℝ => (a + b) / 2) af.lower sf.lower).length := by
    simp only [List.length_zipWith]
    omega
  have bu : i < (List.zipWith (fun a b : ℝ => (a + b) / 2) af.upper sf.upper).length := by
    simp only [List.length_zipWith]
    omega
  have bs : i < (List.zipWith npStdTwo af.mean sf.mean).length := by
    simp only [List.length_zipWith]
    omega
  rw [List.getD_eq_getElem _ _ bm, List.getD_eq_getElem _ _ bl,
    List.getD_eq_getElem _ _ bu, List.getD_eq_getElem _ _ bs,
    List.getElem_zipWith, List.getElem_zipWith, List.getElem_zipWith,
    List.getElem_zipWith]
  exact ⟨rfl, rfl, rfl, rfl, npStdTwo_eq _ _⟩

/-- Witness for C5 on the single-step demo oracle. -/
theorem C5_ensemble_combination_witness :
    (predict_price [5] 6 1 fitsEnsembleDemo).forecast_mean.getD 0 0 = 2 ∧
    (predict_price [5] 6 1 fitsEnsembleDemo).forecast_lower.getD 0 0 = 1 ∧
    (predict_price [5] 6 1 fitsEnsembleDemo).forecast_upper.getD 0 0 = 3 ∧
    (predict_price [5] 6 1 fitsEnsembleDemo).forecast_std.getD 0 0 = 1 := by
  have H := C5_ensemble_combination [5] 6 1 fitsEnsembleDemo
    ⟨[1], [0], [2]⟩ ⟨[3], [2], [4]⟩ rfl 0
    (by norm_num) (by norm_num) (by norm_num) (by norm_num) (by norm_num) (by norm_num)
  obtain ⟨e1, e2, e3, _, e5⟩ := H
  refine ⟨?_, ?_, ?_, ?_⟩
  · rw [e1]; norm_num
  · rw [e2]; norm_num
  · rw [e3]; norm_num
  · rw [e5]; norm_num

/-! ## Fallback path and backtester -/

lemma predict_price_fallback (hist0 : List ℝ) (live : ℝ) (steps : ℕ)
    (fits : FitOracle) (hfit : fits.mainFit = none) :
    (predict_price hist0 live steps fits).forecast_mean =
        (fallbackForecast (lastN 120 (hist0 ++ [live])) steps).1.mean ∧
    (predict_price hist0 live steps fits).forecast_lower =
        (fallbackForecast (lastN 120 (hist0 ++ [live])) steps).1.lower ∧
    (predict_price hist0 live steps fits).forecast_upper =
        (fallbackForecast (lastN 120 (hist0 ++ [live])) steps).1.upper ∧
    (predict_price hist0 live steps fits).forecast_std =
        (fallbackForecast (lastN 120 (hist0 ++ [live])) steps).2 ∧
    (predict_price hist0 live steps fits).accuracy_metrics =
        backtestMetrics (lastN 120 (hist0 ++ [live])) fits.backtestFit := by
  simp [predict_price, hfit]

lemma fallbackForecast_lengths (hist : List ℝ) (steps : ℕ) :
    (fallbackForecast hist steps).1.mean.length = steps ∧
    (fallbackForecast hist steps).1.lower.length = steps ∧
    (fallbackForecast hist steps).1.upper.length = steps ∧
    (fallbackForecast hist steps).2.length = steps := by
  simp [fallbackForecast]

/-- C4 (corrected). The code has no explicit minimum-length check: the
fallback is invoked exactly when the ensemble fitting raises (which is the
expected outcome for series shorter than 10 observations). Whenever the
fallback runs, the returned forecast columns all have length equal to the
requested horizon, and accuracy_metrics is null when the backtest re-fit
also raises. -/
theorem C4_fallback_on_fit_failure (hist0 : List ℝ) (live : ℝ) (steps : ℕ)
    (fits : FitOracle) (hfit : fits.mainFit = none) :
    (predict_price hist0 live steps fits).forecast_mean.length = steps ∧
    (predict_price hist0 live steps fits).forecast_lower.length = steps ∧
    (predict_price hist0 live steps fits).forecast_upper.length = steps ∧
    (predict_price hist0 live steps fits).forecast_std.length = steps ∧
    (fits.backtestFit = none →
      (predict_price hist0 live steps fits).accuracy_metrics = none) := by
  obtain ⟨hm, hl, hu, hs, hacc⟩ := predict_price_fallback hist0 live steps fits hfit
  obtain ⟨lm, ll, lu, ls⟩ := fallbackForecast_lengths (lastN 120 (hist0 ++ [live])) steps
  refine ⟨hm ▸ lm, hl ▸ ll, hu ▸ lu, hs ▸ ls, ?_⟩
  intro hbf
  rw [hacc, hbf]
  rfl

/-- Witness for C4's amended theorem: a 5-point series with horizon 10
whose fitting attempts all raise yields 10 fallback points and null
accuracy metrics. -/
theorem C4_fallback_on_fit_failure_witness :
    ([1, 2, 3, 4, 5] : List ℝ).length < 10 ∧
    (predict_price [1, 2, 3, 4, 5] 6 10 fitsAllFail).forecast_mean.length = 10 ∧
    (predict_price [1, 2, 3, 4, 5] 6 10 fitsAllFail).forecast_lower.length = 10 ∧
    (predict_price [1, 2, 3, 4, 5] 6 10 fitsAllFail).forecast_upper.length = 10 ∧
    (predict_price [1, 2, 3, 4, 5] 6 10 fitsAllFail).forecast_std.length = 10 ∧
    (predict_price [1, 2, 3, 4, 5] 6 10 fitsAllFail).accuracy_metrics = none := by
  have H := C4_fallback_on_fit_failure [1, 2, 3, 4, 5] 6 10 fitsAllFail rfl
  exact ⟨by norm_num, H.1, H.2.1, H.2.2.1, H.2.2.2.1, H.2.2.2.2 rfl⟩

lemma lastN120_six : lastN 120 (([1, 2, 3, 4, 5] : List ℝ) ++ [6]) = [1, 2, 3, 4, 5, 6] := by
  norm_num [lastN]

lemma lastN120_ones : lastN 120 (([1, 1, 1, 1, 1] : List ℝ) ++ [1]) = [1, 1, 1, 1, 1, 1] := by
  norm_num [lastN]

lemma fallback_first_of (hist : List ℝ) (steps : ℕ) (hs : 0 < steps) :
    ((fallbackForecast hist steps).1.mean).getD 0 0 =
      (hist.getLast?).getD 0 +
        ((hist.getLast?).getD 0 - listMeanR (lastN 5 hist)) / 10 * (0 + 1) := by
  have hmean : (fallbackForecast hist steps).1.mean =
      (List.range steps).map (fun i : ℕ =>
        (hist.getLast?).getD 0 +
          ((hist.getLast?).getD 0 - listMeanR (lastN 5 hist)) / 10 * ((i : ℝ) + 1)) := rfl
  rw [hmean, List.getD_eq_getElem _ _ (by simpa using hs), List.getElem_map,
    List.getElem_range]
  norm_num

/-- C3 (code bug). On the failing input — a non-empty series whose ensemble
fit raises while the backtest re-fit succeeds — `predict_price` takes the
fallback path (the first forecast point is the damped-trend value
6 + (6-4)/10 = 31/5) yet returns populated accuracy metrics: the backtest
block of lines 101-132 runs after the except branch and overwrites the
`accuracy_metrics = None` set at line 99, contradicting both the claim and
the code's own comment "Cannot calculate accuracy for fallback". -/
theorem C3_fallback_metrics_bug :
    fitsFallbackBacktestOk.mainFit = none ∧
    (predict_price [1, 2, 3, 4, 5] 6 10 fitsFallbackBacktestOk).forecast_mean =
      (fallbackForecast [1, 2, 3, 4, 5, 6] 10).1.mean ∧
    (predict_price [1, 2, 3, 4, 5] 6 10 fitsFallbackBacktestOk).forecast_mean.getD 0 0 =
      31 / 5 ∧
    (predict_price [1, 2, 3, 4, 5] 6 10 fitsFallbackBacktestOk).accuracy_metrics ≠ none := by
  obtain ⟨hm, _, _, _, hacc⟩ :=
    predict_price_fallback [1, 2, 3, 4, 5] 6 10 fitsFallbackBacktestOk rfl
  rw [lastN120_six] at hm hacc
  refine ⟨rfl, hm, ?_, ?_⟩
  · rw [hm, fallback_first_of _ _ (by norm_num)]
    have hlast : ((([1, 2, 3, 4, 5, 6] : List ℝ).getLast?).getD 0) = 6 := rfl
    have hma : listMeanR (lastN 5 ([1, 2, 3, 4, 5, 6] : List ℝ)) = 4 := by
      norm_num [listMeanR, lastN]
    rw [hlast, hma]
    norm_num
  · rw [hacc]
    rw [show fitsFallbackBacktestOk.backtestFit =
      some (⟨[7, 7], [6, 6], [8, 8]⟩, ⟨[9, 9], [8, 8], [10, 10]⟩) from rfl]
    simp [backtestMetrics, trainSize]

/-- C4 counterexample: a 5-point series (length < 10) on which the
ensemble fit succeeds is served by the ensemble, not the fallback — the
first forecast point is the ensemble value 100, while the fallback would
produce 1. -/
theorem C4_length_guard_cex :
    ([1, 1, 1, 1, 1] : List ℝ).length < 10 ∧
    (predict_price [1, 1, 1, 1, 1] 1 10 fitsShortSeriesOk).forecast_mean.getD 0 0 = 100 ∧
    ((fallbackForecast [1, 1, 1, 1, 1, 1] 10).1.mean).getD 0 0 = 1 ∧
    (predict_price [1, 1, 1, 1, 1] 1 10 fitsShortSeriesOk).forecast_mean ≠
      (fallbackForecast [1, 1, 1, 1, 1, 1] 10).1.mean := by
  have hfb : ((fallbackForecast [1, 1, 1, 1, 1, 1] 10).1.mean).getD 0 0 = 1 := by
    rw [fallback_first_of _ _ (by norm_num)]
    have hlast : ((([1, 1, 1, 1, 1, 1] : List ℝ).getLast?).getD 0) = 1 := rfl
    have hma : listMeanR (lastN 5 ([1, 1, 1, 1, 1, 1] : List ℝ)) = 1 := by
      norm_num [listMeanR, lastN]
    rw [hlast, hma]
    norm_num
  have hens : (predict_price [1, 1, 1, 1, 1] 1 10 fitsShortSeriesOk).forecast_mean.getD 0 0
      = 100 := by
    obtain ⟨hm, _, _, _⟩ := predict_price_main [1, 1, 1, 1, 1] 1 10 fitsShortSeriesOk
      ⟨List.replicate 10 100, List.replicate 10 90, List.replicate 10 110⟩
      ⟨List.replicate 10 100, List.replicate 10 90, List.replicate 10 110⟩ rfl
    rw [hm, List.getD_eq_getElem _ _ (by simp), List.getElem_zipWith]
    simp
  refine ⟨by norm_num, hens, hfb, ?_⟩
  intro heq
  rw [heq, hfb] at hens
  norm_num at hens

/-- C6 (confirmed). The backtester splits the live-appended series at index
⌊0.8·n⌋ into training and test parts, forecasts exactly `len(test)` steps
(the oracle's columns), averages the two sub-model forecasts, and reports
RMSE, MAE, MAPE and the test size; an empty test part or a raised re-fit
yields null metrics, and `predict_price` always returns (never propagates
a backtest error). -/
theorem C6_backtester (hist0 : List ℝ) (live : ℝ) (steps : ℕ) (fits : FitOracle)
    (af sf : Forecast) :
    (predict_price hist0 live steps fits).accuracy_metrics =
      backtestMetrics (lastN 120 (hist0 ++ [live])) fits.backtestFit ∧
    (∀ hist : List ℝ,
      hist.take (trainSize hist.length) ++ hist.drop (trainSize hist.length) = hist ∧
      (hist.take (trainSize hist.length)).length = trainSize hist.length) ∧
    (fits.backtestFit = none →
      backtestMetrics (lastN 120 (hist0 ++ [live])) fits.backtestFit = none) ∧
    (∀ hist : List ℝ, hist.drop (trainSize hist.length) = [] →
      backtestMetrics hist fits.backtestFit = none) ∧
    (fits.backtestFit = some (af, sf) →
      ∀ hist : List ℝ, (hist.drop (trainSize hist.length)).length ≠ 0 →
        ∃ m, backtestMetrics hist fits.backtestFit = some m ∧
          m.test_size = (hist.drop (trainSize hist.length)).length ∧
          m.rmse = Real.sqrt (listMeanR ((List.zipWith (fun t f => t - f)
              (hist.drop (trainSize hist.length))
              (List.zipWith (fun a b => (a + b) / 2) af.mean sf.mean)).map
                (fun e => e ^ 2))) ∧
          m.mae = listMeanR ((List.zipWith (fun t f => t - f)
              (hist.drop (trainSize hist.length))
              (List.zipWith (fun a b => (a + b) / 2) af.mean sf.mean)).map
                (fun e => |e|)) ∧
          m.mape = listMeanR (List.zipWith (fun t f => |t - f| / max skEps |t|)
              (hist.drop (trainSize hist.length))
              (List.zipWith (fun a b => (a + b) / 2) af.mean sf.mean)) * 100) := by
  refine ⟨?_, ?_, ?_, ?_, ?_⟩
  · rcases h : fits.mainFit with _ | ⟨p⟩ <;> simp [predict_price, h]
  · intro hist
    refine ⟨List.take_append_drop _ _, ?_⟩
    rw [List.length_take]
    have : trainSize hist.length ≤ hist.length := by
      rw [trainSize]
      omega
    omega
  · intro hbf
    rw [hbf]
    rfl
  · intro hist htest
    rcases hbf : fits.backtestFit with _ | ⟨p⟩
    · rfl
    · obtain ⟨paf, psf⟩ := p
      simp [backtestMetrics, htest]
  · intro hbf hist hne
    rw [hbf]
    simp only [backtestMetrics]
    rw [if_neg hne]
    exact ⟨_, rfl, rfl, rfl, rfl, rfl⟩

/-- Witness for C6 on the concrete six-point appended window and the
backtest oracle of the C3 scenario. -/
theorem C6_backtester_witness :
    ∃ m, backtestMetrics [1, 2, 3, 4, 5, 6] fitsFallbackBacktestOk.backtestFit = some m ∧
      m.test_size = 2 := by
  have H := C6_backtester [1, 2, 3, 4, 5] 6 10 fitsFallbackBacktestOk
    ⟨[7, 7], [6, 6], [8, 8]⟩ ⟨[9, 9], [8, 8], [10, 10]⟩
  obtain ⟨m, hm, hts, _⟩ := H.2.2.2.2 rfl [1, 2, 3, 4, 5, 6] (by norm_num [trainSize])
  refine ⟨m, hm, ?_⟩
  rw [hts]
  norm_num [trainSize]

/-! ## Order selector grid search -/

/-- Loop invariant of the grid search: over the processed prefix, a `none`
best-AIC means every fit so far failed (and the default order is still
held), while a `some` best-AIC is achieved by the held order and is minimal
among all successful fits so far. -/
def ArimaSearchInv (fitAIC : ℕ × ℕ × ℕ → Option ℚ)
    (processed : List (ℕ × ℕ × ℕ)) (st : (ℕ × ℕ × ℕ) × Option ℚ) : Prop :=
  (st.2 = none → st.1 = (1, 1, 1) ∧ ∀ o ∈ processed, fitAIC o = none) ∧
  (∀ a, st.2 = some a → fitAIC st.1 = some a ∧ st.1 ∈ processed ∧
    ∀ o ∈ processed, ∀ c, fitAIC o = some c → a ≤ c)

lemma arimaStep_preserves (fitAIC : ℕ × ℕ × ℕ → Option ℚ)
    (processed : List (ℕ × ℕ × ℕ)) (st : (ℕ × ℕ × ℕ) × Option ℚ) (o : ℕ × ℕ × ℕ)
    (h : ArimaSearchInv fitAIC processed st) :
    ArimaSearchInv fitAIC (processed ++ [o]) (arimaStep fitAIC st o) := by
  obtain ⟨hnone, hsome⟩ := h
  rcases hf : fitAIC o with _ | a
  · constructor
    · intro h2
      rw [arimaStep, hf] at h2
      obtain ⟨h3, h4⟩ := hnone h2
      refine ⟨by rw [arimaStep, hf]; exact h3, ?_⟩
      intro x hx
      rcases List.mem_append.mp hx with hx | hx
      · exact h4 x hx
      · rw [List.mem_singleton.mp hx]
        exact hf
    · intro a h2
      rw [arimaStep, hf] at h2
      obtain ⟨h3, h4, h5⟩ := hsome a h2
      refine ⟨by rw [arimaStep, hf]; exact h3, ?_, ?_⟩
      · rw [arimaStep, hf]
        exact List.mem_append_left _ h4
      · intro x hx c hc
        rcases List.mem_append.mp hx with hx | hx
        · exact h5 x hx c hc
        · rw [List.mem_singleton.mp hx] at hc
          rw [hf] at hc
          cases hc
  · rcases hb : st.2 with _ | b
    · have hstep : arimaStep fitAIC st o = (o, some a) := by
        rw [arimaStep, hf, hb]
      rw [hstep]
      constructor
      · intro h2
        cases h2
      · intro a2 h2
        obtain rfl : a = a2 := Option.some.inj h2
        refine ⟨hf, List.mem_append_right _ (List.mem_singleton_self o), ?_⟩
        intro x hx c hc
        rcases List.mem_append.mp hx with hx | hx
        · rw [(hnone hb).2 x hx] at hc
          cases hc
        · rw [List.mem_singleton.mp hx, hf] at hc
          obtain rfl := Option.some.inj hc
          exact le_refl _
    · obtain ⟨h3, h4, h5⟩ := hsome b hb
      by_cases hab : a < b
      · have hstep : arimaStep fitAIC st o = (o, some a) := by
          simp only [arimaStep, hf, hb]
          show (if a < b then (o, some a) else st) = (o, some a)
          rw [if_pos hab]
        rw [hstep]
        constructor
        · intro h2
          cases h2
        · intro a2 h2
          obtain rfl : a = a2 := Option.some.inj h2
          refine ⟨hf, List.mem_append_right _ (List.mem_singleton_self o), ?_⟩
          intro x hx c hc
          rcases List.mem_append.mp hx with hx | hx
          · exact le_trans (le_of_lt hab) (h5 x hx c hc)
          · rw [List.mem_singleton.mp hx, hf] at hc
            obtain rfl := Option.some.inj hc
            exact le_refl _
      · have hstep : arimaStep fitAIC st o = st := by
          simp only [arimaStep, hf, hb]
          show (if a < b then (o, some a) else st) = st
          rw [if_neg hab]
        rw [hstep]
        constructor
        · intro h2
          rw [h2] at hb
          cases hb
        · intro a2 h2
          rw [h2] at hb
          obtain rfl := Option.some.inj hb.symm
          refine ⟨h3, List.mem_append_left _ h4, ?_⟩
          intro x hx c hc
          rcases List.mem_append.mp hx with hx | hx
          · exact h5 x hx c hc
          · rw [List.mem_singleton.mp hx, hf] at hc
            obtain rfl := Option.some.inj hc
            exact le_of_not_lt hab
  
lemma arima_foldl_inv (fitAIC : ℕ × ℕ × ℕ → Option ℚ) :
    ∀ (l processed : List (ℕ × ℕ × ℕ)) (st : (ℕ × ℕ × ℕ) × Option ℚ),
      ArimaSearchInv fitAIC processed st →
      ArimaSearchInv fitAIC (processed ++ l) (l.foldl (arimaStep fitAIC) st) := by
  intro l
  induction l with
  | nil =>
    intro processed st h
    simpa using h
  | cons o t ih =>
    intro processed st h
    have h1 := arimaStep_preserves fitAIC processed st o h
    have h2 := ih (processed ++ [o]) (arimaStep fitAIC st o) h1
    rw [List.append_assoc] at h2
    simpa using h2

lemma mem_gridOrders (p d q mp md mq : ℕ) (hp : p ≤ mp) (hd : d ≤ md) (hq : q ≤ mq) :
    (p, d, q) ∈ gridOrders mp md mq := by
  simp only [gridOrders, List.mem_flatMap, List.mem_map, List.mem_range]
  exact ⟨p, by omega, d, by omega, q, by omega, rfl⟩

/-- C8 (confirmed). The order selector is a pure function of the fit
results (so two runs on identical inputs agree), its grid contains every
(p, d, q) within the bounds, it returns the default (1, 1, 1) when every
fit in the grid fails, and otherwise the returned order fits successfully
with an information criterion no larger than that of any successful
combination — which requires the search to have visited the whole grid and
skipped exactly the failed fits. -/
theorem C8_order_selector (fitAIC fit2 : ℕ × ℕ × ℕ → Option ℚ) (mp md mq : ℕ) :
    ((∀ o, fitAIC o = fit2 o) →
      find_best_arima_order fitAIC mp md mq = find_best_arima_order fit2 mp md mq) ∧
    (∀ p d q, p ≤ mp → d ≤ md → q ≤ mq → (p, d, q) ∈ gridOrders mp md mq) ∧
    ((∀ o ∈ gridOrders mp md mq, fitAIC o = none) →
      find_best_arima_order fitAIC mp md mq = (1, 1, 1)) ∧
    (∀ o ∈ gridOrders mp md mq, ∀ a, fitAIC o = some a →
      ∃ b, fitAIC (find_best_arima_order fitAIC mp md mq) = some b ∧ b ≤ a ∧
        find_best_arima_order fitAIC mp md mq ∈ gridOrders mp md mq) := by
  have base : ArimaSearchInv fitAIC [] ((1, 1, 1), none) := by
    constructor
    · intro _
      exact ⟨rfl, fun o ho => absurd ho (List.not_mem_nil o)⟩
    · intro a h
      cases h
  have H := arima_foldl_inv fitAIC (gridOrders mp md mq) [] ((1, 1, 1), none) base
  rw [List.nil_append] at H
  refine ⟨?_, fun p d q => mem_gridOrders p d q mp md mq, ?_, ?_⟩
  · intro hext
    have : fitAIC = fit2 := funext hext
    rw [this]
  · intro hall
    rcases hst : ((gridOrders mp md mq).foldl (arimaStep fitAIC) ((1, 1, 1), none)).2
      with _ | a
    · rw [find_best_arima_order]
      exact (H.1 hst).1
    · obtain ⟨h3, h4, _⟩ := H.2 a hst
      rw [hall _ h4] at h3
      cases h3
  · intro o ho a hfa
    rcases hst : ((gridOrders mp md mq).foldl (arimaStep fitAIC) ((1, 1, 1), none)).2
      with _ | b
    · rw [(H.1 hst).2 o ho] at hfa
      cases hfa
    · obtain ⟨h3, h4, h5⟩ := H.2 b hst
      rw [find_best_arima_order]
      exact ⟨b, h3, h5 o ho a hfa, h4⟩

/-- Witness for C8: with an all-failing fit oracle the selector returns the
default order (1, 1, 1), which lies inside the default search grid. -/
theorem C8_order_selector_witness :
    find_best_arima_order (fun _ => none) 3 2 3 = (1, 1, 1) ∧
    (1, 1, 1) ∈ gridOrders 3 2 3 := by
  have H := C8_order_selector (fun _ => none) (fun _ => none) 3 2 3
  exact ⟨H.2.2.1 (fun o _ => rfl), H.2.1 1 1 1 (by norm_num) (by norm_num) (by norm_num)⟩
